import Mathlib

/-!
# D3D12RaytracingAmbientOcclusion — verification of the spec's claims

A shallow embedding of the `D3D12RaytracingAmbientOcclusion` sample class
(`D3D12RaytracingAmbientOcclusion.h`).  The repository ships only the class
declaration: constants, member fields and the inline request setters are
embedded directly from that header; the bodies of the declared member
functions (acceleration-structure lifecycle, denoising chain, shader-table
build, frame driver) are not in the repository, so they are modelled from the
specification's contracts, each such definition marked `Modelled from the
spec:` in its doc comment.
-/

namespace D3D12RaytracingAmbientOcclusion

/-! ## Constants from the header -/

/-- `static const UINT MaxBLAS = 1000;` — public bound on bottom-level
acceleration structures. -/
def MaxBLAS : Nat := 1000

/-- `static const UINT FrameCount = 3;` — number of in-flight frames; also the
size of the fence-value table `m_fenceValues[FrameCount]`. -/
def FrameCount : Nat := 3

/-- `const UINT NUM_BLAS = 2;  // Triangle + AABB bottom-level AS.` -/
def NUM_BLAS : Nat := 2

/-- `const UINT c_SupersamplingScale = 2;` -/
def c_SupersamplingScale : Nat := 2

/-- `const UINT MaxGeometryTransforms = 10000;` — capacity of the structured
buffer `m_geometryTransforms`. -/
def MaxGeometryTransforms : Nat := 10000

/-! ## Deferred request flags

The five pending-request member booleans of the class, and the five public
`Request*` setters, embedded from their inline bodies in the header. -/

/-- The deferred-request flag fields of the class
(`m_isGeometryInitializationRequested` … `m_isRecreateAOSamplesRequested`). -/
structure RequestFlags where
  m_isGeometryInitializationRequested : Bool
  m_isASinitializationRequested : Bool
  m_isSceneInitializationRequested : Bool
  m_isRecreateRaytracingResourcesRequested : Bool
  m_isRecreateAOSamplesRequested : Bool
deriving DecidableEq, Repr, Fintype

/-- `void RequestGeometryInitialization(bool bRequest) {
m_isGeometryInitializationRequested = bRequest; }` -/
def RequestGeometryInitialization (bRequest : Bool) (s : RequestFlags) :
    RequestFlags :=
  { s with m_isGeometryInitializationRequested := bRequest }

/-- `void RequestASInitialization(bool bRequest) {
m_isASinitializationRequested = bRequest; }` -/
def RequestASInitialization (bRequest : Bool) (s : RequestFlags) :
    RequestFlags :=
  { s with m_isASinitializationRequested := bRequest }

/-- `void RequestSceneInitialization() {
m_isSceneInitializationRequested = true; }` -/
def RequestSceneInitialization (s : RequestFlags) : RequestFlags :=
  { s with m_isSceneInitializationRequested := true }

/-- `void RequestRecreateRaytracingResources() {
m_isRecreateRaytracingResourcesRequested = true; }` -/
def RequestRecreateRaytracingResources (s : RequestFlags) : RequestFlags :=
  { s with m_isRecreateRaytracingResourcesRequested := true }

/-- `void RequestRecreateAOSamples() {
m_isRecreateAOSamplesRequested = true; }` -/
def RequestRecreateAOSamples (s : RequestFlags) : RequestFlags :=
  { s with m_isRecreateAOSamplesRequested := true }

/-- The actions a pending request flag defers to the start of the next
frame. -/
inductive DeferredAction where
  | sceneInit
  | geometryInit
  | asInit
  | recreateRaytracingResources
  | recreateAOSamples
deriving DecidableEq, Repr

/-- Modelled from the spec: the frame driver (`OnUpdate`) drains all pending
request flags once, at the start of the next frame, in a fixed priority order
(scene > geometry > acceleration structure > raytracing resources > AO
samples), performing each requested action exactly when its flag is pending,
and clears every flag.  The body of the frame driver is not in the
repository's files. -/
def drainDeferredRequests (s : RequestFlags) :
    List DeferredAction × RequestFlags :=
  ((if s.m_isSceneInitializationRequested then [DeferredAction.sceneInit]
      else []) ++
   (if s.m_isGeometryInitializationRequested then [DeferredAction.geometryInit]
      else []) ++
   (if s.m_isASinitializationRequested then [DeferredAction.asInit]
      else []) ++
   (if s.m_isRecreateRaytracingResourcesRequested then
      [DeferredAction.recreateRaytracingResources] else []) ++
   (if s.m_isRecreateAOSamplesRequested then
      [DeferredAction.recreateAOSamples] else []),
   ⟨false, false, false, false, false⟩)

/-! ## Acceleration-structure lifecycle

The header declares `m_vBottomLevelAS`, `m_topLevelAS`,
`m_accelerationStructureScratch`, `m_numFramesSinceASBuild`,
`m_isASrebuildRequested`, `InitializeAccelerationStructures` and
`UpdateAccelerationStructures(bool forceBuild = false)`; their bodies are not
in the repository's files, so the lifecycle is modelled from the spec's
Acceleration Structure Manager contract (§4.1). -/

/-- A bottom-level acceleration structure: whether it has ever been fully
built, and the id of its result buffer when so. -/
structure BottomLevelAccelerationStructure where
  built : Bool
  resultBuffer : Nat
deriving DecidableEq, Repr

/-- The top-level acceleration structure: whether it is built this frame and
how many instances its instance-desc table holds. -/
structure TopLevelAccelerationStructure where
  built : Bool
  instanceCount : Nat
deriving DecidableEq, Repr

/-- The acceleration-structure slice of the class state:
`m_vBottomLevelAS`, `m_topLevelAS`, `m_accelerationStructureScratch`,
`m_numFramesSinceASBuild`, `m_isASrebuildRequested`. -/
structure ASState where
  vBottomLevelAS : List BottomLevelAccelerationStructure
  topLevelAS : TopLevelAccelerationStructure
  accelerationStructureScratch : Option Nat
  numFramesSinceASBuild : Int
  isASrebuildRequested : Bool
deriving DecidableEq, Repr

/-- The failure the spec's `InitializeStructures` contract signals when device
memory for scratch or result buffers cannot be allocated. -/
inductive BuildFailure where
  | allocFailure
deriving DecidableEq, Repr

/-- Attempt one buffer allocation: the oracle `alloc` says whether device
memory for allocation number `i` is available. -/
def allocBuffer (alloc : Nat → Bool) (i : Nat) : Option Nat :=
  if alloc i then some i else none

/-- Attempt `n` result-buffer allocations at consecutive allocation numbers,
failing if any single allocation fails. -/
def allocResultBuffers (alloc : Nat → Bool) (first : Nat) :
    Nat → Option (List Nat)
  | 0 => some []
  | n + 1 =>
    match allocBuffer alloc first with
    | none => none
    | some b =>
      match allocResultBuffers alloc (first + 1) n with
      | none => none
      | some bs => some (b :: bs)

/-- Modelled from the spec: `InitializeAccelerationStructures` (the spec's
`InitializeStructures`) builds one BLAS per geometry group — `NUM_BLAS = 2`,
triangle + AABB — after allocating the shared scratch buffer and one result
buffer per BLAS; it signals `BuildFailure` if device memory for scratch or
result buffers cannot be allocated, and on failure leaves the
acceleration-structure state unchanged, with no partially built BLAS marked
valid.  The function body is not in the repository's files. -/
def InitializeAccelerationStructures (alloc : Nat → Bool) (s : ASState) :
    ASState × Option BuildFailure :=
  match allocBuffer alloc 0 with
  | none => (s, some BuildFailure.allocFailure)
  | some scratch =>
    match allocResultBuffers alloc 1 NUM_BLAS with
    | none => (s, some BuildFailure.allocFailure)
    | some bufs =>
      ({ vBottomLevelAS := bufs.map fun b => ⟨true, b⟩
         topLevelAS := ⟨true, s.topLevelAS.instanceCount⟩
         accelerationStructureScratch := some scratch
         numFramesSinceASBuild := 0
         isASrebuildRequested := false }, none)

/-- The per-structure operation the per-frame update performs. -/
inductive ASOp where
  | blasBuild
  | blasRefit
  | tlasBuild
deriving DecidableEq, Repr

/-- Modelled from the spec: `UpdateAccelerationStructures(forceBuild)` (the
spec's `RebuildOrRefit`) decides, per BLAS, rebuild (full reconstruction,
required after a topology change, when a rebuild was requested, or when the
structure was never built) versus refit (cheap transform-only update, valid
only if topology is unchanged since the last build); it always rebuilds the
TLAS top level every frame from the current geometry-instance table, so the
TLAS instance count equals that table's entry count.  It returns the new
state together with, first, one operation per BLAS in order, then the TLAS
build.  The function body is not in the repository's files. -/
def UpdateAccelerationStructures (forceBuild topologyChanged : Bool)
    (geometryInstances : List Nat) (s : ASState) : ASState × List ASOp :=
  let rebuildAll := forceBuild || topologyChanged || s.isASrebuildRequested
  let blasOps := s.vBottomLevelAS.map fun b =>
    if rebuildAll || !b.built then
      ((⟨true, b.resultBuffer⟩ : BottomLevelAccelerationStructure),
        ASOp.blasBuild)
    else (b, ASOp.blasRefit)
  ({ vBottomLevelAS := blasOps.map Prod.fst
     topLevelAS := ⟨true, geometryInstances.length⟩
     accelerationStructureScratch := s.accelerationStructureScratch
     numFramesSinceASBuild := if rebuildAll then 0
       else s.numFramesSinceASBuild + 1
     isASrebuildRequested := false },
   blasOps.map Prod.snd ++ [ASOp.tlasBuild])

/-- The acceleration-structure states the program can reach: a successful
`InitializeAccelerationStructures`, followed by any number of per-frame
`UpdateAccelerationStructures` calls. -/
inductive ASReachable : ASState → Prop where
  | init (alloc : Nat → Bool) (s₀ s : ASState)
      (h : InitializeAccelerationStructures alloc s₀ = (s, none)) :
      ASReachable s
  | step (forceBuild topologyChanged : Bool) (geometryInstances : List Nat)
      (s : ASState) (hs : ASReachable s) :
      ASReachable (UpdateAccelerationStructures forceBuild topologyChanged
        geometryInstances s).1

/-! ## Per-frame control flow

Modelled from the spec's §2 control flow: update camera/scene state →
acceleration-structure update → ray dispatch → denoising → compose. -/

/-- The observable stages of one rendered frame, in issue order. -/
inductive FrameEvent where
  | updateSceneState
  | asOp (op : ASOp)
  | dispatchRays
  | denoise
  | compose
deriving DecidableEq, Repr

/-- Modelled from the spec: the per-frame driver (`OnUpdate`/`OnRender`)
issues, in order, the scene-state update, the acceleration-structure update's
operations (each BLAS rebuild/refit, then the TLAS build), the ray dispatch,
the denoising chain and the compose pass; the bodies of `OnUpdate` and
`OnRender` are not in the repository's files.  Returns the state after the
frame and the ordered event list. -/
def renderFrame (forceBuild topologyChanged : Bool)
    (geometryInstances : List Nat) (s : ASState) :
    ASState × List FrameEvent :=
  let u := UpdateAccelerationStructures forceBuild topologyChanged
    geometryInstances s
  (u.1,
   FrameEvent.updateSceneState :: u.2.map FrameEvent.asOp ++
     [FrameEvent.dispatchRays, FrameEvent.denoise, FrameEvent.compose])

/-! ## Denoising-chain resolutions

The header fixes `c_SupersamplingScale = 2` and declares
`DownsampleRaytracingOutput`, `DownsampleGBufferBilateral` and
`UpsampleAOBilateral`; their bodies are not in the repository's files, so the
stage resolution contract is modelled from the spec's resolution law. -/

/-- Ceiling division, the size of a compute grid covering `w` source pixels
with one output pixel per `s`-pixel group. -/
def ceilDivide (w s : Nat) : Nat := (w + s - 1) / s

/-- Modelled from the spec: the downsample stage reduces a `w × h` input by
the supersampling scale `s`, producing a `⌈w/s⌉ × ⌈h/s⌉` output.  The kernel
bodies are not in the repository's files. -/
def downsampleOutputDims (w h s : Nat) : Nat × Nat :=
  (ceilDivide w s, ceilDivide h s)

/-- Modelled from the spec: the bilateral upsample stage reconstructs the full
raytracing resolution `w × h` (`m_raytracingWidth × m_raytracingHeight`) from
the filtered low-resolution input, whatever the low resolution was.  The
kernel body is not in the repository's files. -/
def upsampleOutputDims (raytracingWidth raytracingHeight : Nat)
    (_lowResDims : Nat × Nat) : Nat × Nat :=
  (raytracingWidth, raytracingHeight)

/-- The denoising chain's resolution flow for a raytracing resolution
`w × h`: the downsample stage's output dimensions, then the bilateral
upsample's output dimensions computed from them. -/
def denoiseChainDims (w h : Nat) : (Nat × Nat) × (Nat × Nat) :=
  let low := downsampleOutputDims w h c_SupersamplingScale
  (low, upsampleOutputDims w h low)

/-! ## Shader tables

The header declares `BuildShaderTables` and the per-table stride members
`m_rayGenShaderTableRecordSizeInBytes`, `m_hitGroupShaderTableStrideInBytes`,
`m_missShaderTableStrideInBytes`; the body of `BuildShaderTables` is not in
the repository's files, so it is modelled from the spec's shader-table
contract (§4.2). -/

/-- One shader-table record: the size in bytes of its argument block (shader
identifier plus local root arguments). -/
structure ShaderRecord where
  argumentBlockSize : Nat
deriving DecidableEq, Repr

/-- A built shader table: its records and the single stride used for every
record slot. -/
structure ShaderTable where
  records : List ShaderRecord
  strideInBytes : Nat
deriving DecidableEq, Repr

/-- The largest argument-block size over a table's records. -/
def maxArgumentBlockSize (records : List ShaderRecord) : Nat :=
  records.foldr (fun r m => Nat.max r.argumentBlockSize m) 0

/-- Modelled from the spec: building one shader table computes its stride
once, from the largest argument block across all entries assigned to that
table; every entry then occupies one stride-sized slot. -/
def buildShaderTable (records : List ShaderRecord) : ShaderTable :=
  ⟨records, maxArgumentBlockSize records⟩

/-- The three shader tables `BuildShaderTables` builds: ray generation, hit
group, miss. -/
structure ShaderTables where
  rayGenShaderTable : ShaderTable
  hitGroupShaderTable : ShaderTable
  missShaderTable : ShaderTable
deriving DecidableEq, Repr

/-- Modelled from the spec: `BuildShaderTables` builds the ray-generation,
hit-group and miss tables, assigning each table one stride computed once from
the largest argument block across all entries in that table.  The function
body is not in the repository's files. -/
def BuildShaderTables (rayGenRecords hitGroupRecords missRecords :
    List ShaderRecord) : ShaderTables :=
  ⟨buildShaderTable rayGenRecords, buildShaderTable hitGroupRecords,
    buildShaderTable missRecords⟩

/-! ## Frame pipelining and the geometry-transform table

The header fixes `FrameCount = 3` and sizes the fence table
`m_fenceValues[FrameCount]`; the structured buffer `m_geometryTransforms` is
capped by `MaxGeometryTransforms = 10000`.  The producer loop's body is not
in the repository's files, so it is modelled from the spec's concurrency
model (§5). -/

/-- The frame-pipelining slice of the state: the fence-value table (one slot
per in-flight frame), the number of frames issued so far, and the fence value
the GPU has completed; plus the geometry-transform table's entry count. -/
structure FramePipelineState where
  fenceValues : List Nat
  issued : Nat
  completedFenceValue : Nat
  geometryTransformCount : Nat
deriving DecidableEq, Repr

/-- The pipeline state at program start: fence table of `FrameCount` zeroed
slots, nothing issued, nothing pending in the transform table. -/
def initialFramePipelineState : FramePipelineState :=
  ⟨List.replicate FrameCount 0, 0, 0, 0⟩

/-- Frames issued but not yet completed by the GPU. -/
def inFlightFrames (s : FramePipelineState) : Nat :=
  s.issued - s.completedFenceValue

/-- Modelled from the spec: issuing the next frame.  Frame pipelining is
bounded by `FrameCount` in-flight frames: before reusing the fence slot of
frame `issued + 1`, the producer blocks on the fence until the oldest
in-flight frame (fence value `issued + 1 - FrameCount`) has completed; the
new frame's fence value `issued + 1` is then recorded in slot
`issued % FrameCount`.  The producer loop's body is not in the repository's
files. -/
def issueFrame (s : FramePipelineState) : FramePipelineState :=
  let newFence := s.issued + 1
  let waitedCompleted :=
    if newFence ≥ FrameCount then
      Nat.max s.completedFenceValue (newFence - FrameCount)
    else s.completedFenceValue
  { fenceValues := s.fenceValues.set (s.issued % FrameCount) newFence
    issued := newFence
    completedFenceValue := waitedCompleted
    geometryTransformCount := s.geometryTransformCount }

/-- Modelled from the spec: uploading per-instance geometry transforms writes
into the structured buffer `m_geometryTransforms`, whose capacity is
`MaxGeometryTransforms`; a batch that would exceed the capacity is rejected
rather than silently truncated. -/
def uploadGeometryTransforms (count : Nat) (s : FramePipelineState) :
    FramePipelineState :=
  if count ≤ MaxGeometryTransforms then
    { s with geometryTransformCount := count }
  else s

/-- The pipeline states the producer thread can reach from program start by
issuing frames and uploading geometry transforms. -/
inductive PipelineReachable : FramePipelineState → Prop where
  | start : PipelineReachable initialFramePipelineState
  | issue (s : FramePipelineState) (hs : PipelineReachable s) :
      PipelineReachable (issueFrame s)
  | upload (count : Nat) (s : FramePipelineState) (hs : PipelineReachable s) :
      PipelineReachable (uploadGeometryTransforms count s)

/-! ## Edge-aware atrous wavelet filter

The header declares `ApplyAtrousWaveletTransformFilter` and the kernel object
`m_atrousWaveletTransformFilter`
(`GpuKernels::AtrousWaveletTransformCrossBilateralFilter`); the kernel body
is not in the repository's files, so the filter is modelled from the spec's
§4.3: an iterative, expanding-kernel cross-bilateral filter, each iteration
doubling its sampling stride, edge-stopped by GBuffer normal/depth and by the
variance map so that zero variance fully preserves differing detail; each
pass writes the smoothed result and an updated variance estimate consumed by
the next pass.  Values are rationals: the claim's floating-point tolerance is
exact equality in this model. -/

/-- A pixel coordinate of the occlusion image. -/
abbrev Pixel := Int × Int

/-- The GBuffer side-channel the filter's edge-stopping functions read:
per-pixel linear depth and surface normal. -/
structure GBuffer where
  depth : Pixel → ℚ
  normal : Pixel → ℚ × ℚ × ℚ

/-- The one-dimensional B3-spline kernel weight at tap offset `-2 … 2`. -/
def kernelWeight1D (i : Int) : ℚ :=
  if i = -2 ∨ i = 2 then 1 / 16
  else if i = -1 ∨ i = 1 then 1 / 4
  else if i = 0 then 3 / 8
  else 0

/-- The 25 tap offsets of the 5×5 separable kernel. -/
def kernelTaps : List (Int × Int) :=
  ([-2, -1, 0, 1, 2] : List Int).flatMap fun i =>
    ([-2, -1, 0, 1, 2] : List Int).map fun j => (i, j)

/-- The spatial kernel weight of a tap: the product of the two 1-D weights. -/
def kernelWeight (t : Int × Int) : ℚ := kernelWeight1D t.1 * kernelWeight1D t.2

/-- Depth edge-stopping factor from the depth difference `dz`: `1` on equal
depth, decaying with the squared difference. -/
def depthWeight (dz : ℚ) : ℚ := 1 / (1 + dz ^ 2)

/-- Normal edge-stopping factor from the squared normal distance `dn2`. -/
def normalWeight (dn2 : ℚ) : ℚ := 1 / (1 + dn2)

/-- Variance-guided value edge-stopping factor: confidence-weighted on the
value difference `dv`, it is `1` on equal values and vanishes on differing
values as the local variance `var` goes to `0`, so zero variance (full
confidence) fully preserves differing detail. -/
def valueWeight (var dv : ℚ) : ℚ :=
  if dv = 0 then 1 else var / (var + dv ^ 2)

/-- Squared distance of two normals. -/
def normalDistSq (a b : ℚ × ℚ × ℚ) : ℚ :=
  (a.1 - b.1) ^ 2 + (a.2.1 - b.2.1) ^ 2 + (a.2.2 - b.2.2) ^ 2

/-- The sampled neighbour of `p` at tap `t` with sampling stride `step`. -/
def tapPixel (p : Pixel) (step : Int) (t : Int × Int) : Pixel :=
  (p.1 + step * t.1, p.2 + step * t.2)

/-- The full cross-bilateral weight of tap `t` at pixel `p`: spatial kernel ×
depth edge stop × normal edge stop × variance-guided value edge stop. -/
def filterWeight (g : GBuffer) (var value : Pixel → ℚ) (step : Int)
    (p : Pixel) (t : Int × Int) : ℚ :=
  let q := tapPixel p step t
  kernelWeight t * depthWeight (g.depth q - g.depth p) *
    normalWeight (normalDistSq (g.normal q) (g.normal p)) *
    valueWeight (var p) (value q - value p)

/-- One atrous pass, value plane: the weight-normalised sum of the sampled
neighbours (the input value where the total weight degenerates to `0`). -/
def atrousPassValue (g : GBuffer) (var value : Pixel → ℚ) (step : Int)
    (p : Pixel) : ℚ :=
  let w := filterWeight g var value step p
  let den := (kernelTaps.map w).sum
  if den = 0 then value p
  else (kernelTaps.map fun t => w t * value (tapPixel p step t)).sum / den

/-- One atrous pass, variance plane: the updated variance estimate consumed
by the next pass, with squared weights. -/
def atrousPassVariance (g : GBuffer) (var value : Pixel → ℚ) (step : Int)
    (p : Pixel) : ℚ :=
  let w := filterWeight g var value step p
  let den := (kernelTaps.map w).sum
  if den = 0 then var p
  else (kernelTaps.map fun t => w t ^ 2 * var (tapPixel p step t)).sum /
    den ^ 2

/-- The remaining iterations of the chain from iteration number `i`: each
pass samples with stride `2 ^ i` and hands its smoothed value and updated
variance to the next. -/
def atrousChainFrom (g : GBuffer) : Nat → Nat → (Pixel → ℚ) → (Pixel → ℚ) →
    (Pixel → ℚ) × (Pixel → ℚ)
  | _, 0, value, var => (value, var)
  | i, n + 1, value, var =>
    atrousChainFrom g (i + 1) n
      (fun p => atrousPassValue g var value ((2 : Int) ^ i) p)
      (fun p => atrousPassVariance g var value ((2 : Int) ^ i) p)

/-- Modelled from the spec: `ApplyAtrousWaveletTransformFilter` runs the
configured number `n` of atrous iterations over the occlusion image `value`
with its variance map `var` and the GBuffer side-channel, the sampling stride
doubling each iteration; returns the final smoothed image and variance.  The
kernel body is not in the repository's files. -/
def ApplyAtrousWaveletTransformFilter (g : GBuffer) (n : Nat)
    (value var : Pixel → ℚ) : (Pixel → ℚ) × (Pixel → ℚ) :=
  atrousChainFrom g 0 n value var

/-! ## Helper lemmas -/

/-- `allocResultBuffers` returns exactly as many buffers as requested. -/
theorem allocResultBuffers_length (alloc : Nat → Bool) :
    ∀ (first n : Nat) (bs : List Nat),
      allocResultBuffers alloc first n = some bs → bs.length = n := by
  intro first n
  induction n generalizing first with
  | zero =>
    intro bs h
    simp only [allocResultBuffers] at h
    cases h
    rfl
  | succ n ih =>
    intro bs h
    simp only [allocResultBuffers] at h
    cases hb : allocBuffer alloc first with
    | none => rw [hb] at h; cases h
    | some b =>
      rw [hb] at h
      cases hr : allocResultBuffers alloc (first + 1) n with
      | none => rw [hr] at h; cases h
      | some bs₀ =>
        rw [hr] at h
        cases h
        simp [ih (first + 1) bs₀ hr]

/-- A successful initialization produces exactly `NUM_BLAS` bottom-level
structures. -/
theorem init_blas_length (alloc : Nat → Bool) (s₀ s : ASState)
    (h : InitializeAccelerationStructures alloc s₀ = (s, none)) :
    s.vBottomLevelAS.length = NUM_BLAS := by
  unfold InitializeAccelerationStructures at h
  cases hb : allocBuffer alloc 0 with
  | none => rw [hb] at h; cases h
  | some scratch =>
    rw [hb] at h
    cases hr : allocResultBuffers alloc 1 NUM_BLAS with
    | none => rw [hr] at h; cases h
    | some bufs =>
      rw [hr] at h
      cases h
      simp [allocResultBuffers_length alloc 1 NUM_BLAS bufs hr]

/-- The per-frame update never changes the number of bottom-level
structures. -/
theorem update_blas_length (forceBuild topologyChanged : Bool)
    (geometryInstances : List Nat) (s : ASState) :
    (UpdateAccelerationStructures forceBuild topologyChanged geometryInstances
      s).1.vBottomLevelAS.length = s.vBottomLevelAS.length := by
  simp [UpdateAccelerationStructures]

/-- `ceilDivide w 2` is the rational ceiling of `w / 2`. -/
theorem ceilDivide_two_eq_ceil (w : Nat) :
    ((ceilDivide w 2 : Nat) : ℤ) = ⌈(w : ℚ) / 2⌉ := by
  have h1 : w ≤ 2 * ceilDivide w 2 := by unfold ceilDivide; omega
  have h2 : 2 * ceilDivide w 2 < w + 2 := by unfold ceilDivide; omega
  symm
  rw [Int.ceil_eq_iff]
  constructor
  · rw [lt_div_iff₀ (by norm_num : (0 : ℚ) < 2)]
    have : (2 * ceilDivide w 2 : ℚ) < w + 2 := by exact_mod_cast h2
    push_cast
    linarith
  · rw [div_le_iff₀ (by norm_num : (0 : ℚ) < 2)]
    have : (w : ℚ) ≤ 2 * ceilDivide w 2 := by exact_mod_cast h1
    push_cast
    linarith

/-- Every record's argument block fits below the table-wide maximum. -/
theorem le_maxArgumentBlockSize (records : List ShaderRecord) :
    ∀ r ∈ records, r.argumentBlockSize ≤ maxArgumentBlockSize records := by
  induction records with
  | nil => intro r hr; cases hr
  | cons a l ih =>
    intro r hr
    rcases List.mem_cons.mp hr with rfl | hr
    · exact Nat.le_max_left _ _
    · exact Nat.le_trans (ih r hr) (Nat.le_max_right _ _)

/-! ## Claim theorems -/

/-- **C8.** Each `Request*` setter writes exactly its own pending flag —
calling it any number of times within one frame equals calling it once, and
no other flag of the observable request state changes — and the frame driver
performs a deferred action at the start of the next frame exactly when its
flag is pending. -/
theorem request_flags_coalesce_and_defer :
    ∀ (b : Bool) (s : RequestFlags),
      (RequestGeometryInitialization b (RequestGeometryInitialization b s) =
          RequestGeometryInitialization b s ∧
        (RequestGeometryInitialization b s).m_isGeometryInitializationRequested
            = b ∧
        (RequestGeometryInitialization b s).m_isASinitializationRequested =
          s.m_isASinitializationRequested ∧
        (RequestGeometryInitialization b s).m_isSceneInitializationRequested =
          s.m_isSceneInitializationRequested ∧
        (RequestGeometryInitialization b
              s).m_isRecreateRaytracingResourcesRequested =
          s.m_isRecreateRaytracingResourcesRequested ∧
        (RequestGeometryInitialization b s).m_isRecreateAOSamplesRequested =
          s.m_isRecreateAOSamplesRequested) ∧
      (RequestASInitialization b (RequestASInitialization b s) =
          RequestASInitialization b s ∧
        (RequestASInitialization b s).m_isASinitializationRequested = b ∧
        (RequestASInitialization b s).m_isGeometryInitializationRequested =
          s.m_isGeometryInitializationRequested ∧
        (RequestASInitialization b s).m_isSceneInitializationRequested =
          s.m_isSceneInitializationRequested ∧
        (RequestASInitialization b
              s).m_isRecreateRaytracingResourcesRequested =
          s.m_isRecreateRaytracingResourcesRequested ∧
        (RequestASInitialization b s).m_isRecreateAOSamplesRequested =
          s.m_isRecreateAOSamplesRequested) ∧
      (RequestSceneInitialization (RequestSceneInitialization s) =
          RequestSceneInitialization s ∧
        (RequestSceneInitialization s).m_isSceneInitializationRequested =
          true ∧
        (RequestSceneInitialization s).m_isGeometryInitializationRequested =
          s.m_isGeometryInitializationRequested ∧
        (RequestSceneInitialization s).m_isASinitializationRequested =
          s.m_isASinitializationRequested ∧
        (RequestSceneInitialization
              s).m_isRecreateRaytracingResourcesRequested =
          s.m_isRecreateRaytracingResourcesRequested ∧
        (RequestSceneInitialization s).m_isRecreateAOSamplesRequested =
          s.m_isRecreateAOSamplesRequested) ∧
      (RequestRecreateRaytracingResources
            (RequestRecreateRaytracingResources s) =
          RequestRecreateRaytracingResources s ∧
        (RequestRecreateRaytracingResources
              s).m_isRecreateRaytracingResourcesRequested = true ∧
        (RequestRecreateRaytracingResources
              s).m_isGeometryInitializationRequested =
          s.m_isGeometryInitializationRequested ∧
        (RequestRecreateRaytracingResources s).m_isASinitializationRequested =
          s.m_isASinitializationRequested ∧
        (RequestRecreateRaytracingResources
              s).m_isSceneInitializationRequested =
          s.m_isSceneInitializationRequested ∧
        (RequestRecreateRaytracingResources
              s).m_isRecreateAOSamplesRequested =
          s.m_isRecreateAOSamplesRequested) ∧
      (RequestRecreateAOSamples (RequestRecreateAOSamples s) =
          RequestRecreateAOSamples s ∧
        (RequestRecreateAOSamples s).m_isRecreateAOSamplesRequested = true ∧
        (RequestRecreateAOSamples s).m_isGeometryInitializationRequested =
          s.m_isGeometryInitializationRequested ∧
        (RequestRecreateAOSamples s).m_isASinitializationRequested =
          s.m_isASinitializationRequested ∧
        (RequestRecreateAOSamples s).m_isSceneInitializationRequested =
          s.m_isSceneInitializationRequested ∧
        (RequestRecreateAOSamples
              s).m_isRecreateRaytracingResourcesRequested =
          s.m_isRecreateRaytracingResourcesRequested) ∧
      ((DeferredAction.sceneInit ∈ (drainDeferredRequests s).1 ↔
          s.m_isSceneInitializationRequested = true) ∧
        (DeferredAction.geometryInit ∈ (drainDeferredRequests s).1 ↔
          s.m_isGeometryInitializationRequested = true) ∧
        (DeferredAction.asInit ∈ (drainDeferredRequests s).1 ↔
          s.m_isASinitializationRequested = true) ∧
        (DeferredAction.recreateRaytracingResources ∈
            (drainDeferredRequests s).1 ↔
          s.m_isRecreateRaytracingResourcesRequested = true) ∧
        (DeferredAction.recreateAOSamples ∈ (drainDeferredRequests s).1 ↔
          s.m_isRecreateAOSamplesRequested = true)) := by
  intro b s
  obtain ⟨f₁, f₂, f₃, f₄, f₅⟩ := s
  cases b <;> cases f₁ <;> cases f₂ <;> cases f₃ <;> cases f₄ <;> cases f₅ <;>
    decide

/-- **C9.** A reachable acceleration-structure state exists; in every state
reachable after acceleration-structure initialization the number of
bottom-level structures is exactly `NUM_BLAS = 2` (one triangle, one AABB),
which is strictly below the public bound `MaxBLAS = 1000`; the count never
grows or shrinks across per-frame updates. -/
theorem blas_count_invariant :
    NUM_BLAS = 2 ∧ NUM_BLAS < MaxBLAS ∧ (∃ s, ASReachable s) ∧
      ∀ s, ASReachable s → s.vBottomLevelAS.length = NUM_BLAS := by
  refine ⟨rfl, by decide, ?_, ?_⟩
  · exact ⟨_, ASReachable.init (fun _ => true)
      ⟨[], ⟨false, 0⟩, none, 0, true⟩ _ rfl⟩
  · intro s hs
    induction hs with
    | init alloc s₀ s h => exact init_blas_length alloc s₀ s h
    | step forceBuild topologyChanged geometryInstances s hs ih =>
      rw [update_blas_length]
      exact ih

/-- **C10.** The in-flight frame bound is exactly `FrameCount = 3`: the fence
table keeps one slot per in-flight frame, and in every reachable producer
state at most `FrameCount` issued frames are not yet completed — a 4th frame
is never in flight; and the geometry-transform table never holds more than
`MaxGeometryTransforms = 10000` transforms. -/
theorem frame_pipelining_and_transform_bounds :
    FrameCount = 3 ∧ MaxGeometryTransforms = 10000 ∧
      ∀ s, PipelineReachable s →
        inFlightFrames s ≤ FrameCount ∧
        s.fenceValues.length = FrameCount ∧
        s.geometryTransformCount ≤ MaxGeometryTransforms := by
  refine ⟨rfl, rfl, ?_⟩
  intro s hs
  induction hs with
  | start => refine ⟨by decide, by simp [initialFramePipelineState], by decide⟩
  | issue s hs ih =>
    obtain ⟨h₁, h₂, h₃⟩ := ih
    refine ⟨?_, ?_, h₃⟩
    · simp only [inFlightFrames, issueFrame, FrameCount, Nat.max_def]
        at h₁ ⊢
      split
      · split <;> omega
      · omega
    · simpa [issueFrame] using h₂
  | upload count s hs ih =>
    obtain ⟨h₁, h₂, h₃⟩ := ih
    unfold uploadGeometryTransforms
    split
    · exact ⟨h₁, h₂, by simp_all⟩
    · exact ⟨h₁, h₂, h₃⟩

/-- **C2.** For every raytracing resolution `w × h` and the configured
supersampling scale `c_SupersamplingScale` (fixed at 2), the downsample stage
outputs exactly `⌈w/2⌉ × ⌈h/2⌉` pixels — stated both as the ceiling-division
characterisation over the naturals and as equality with the rational ceiling
— and the bilateral upsample stage restores an output of exactly `w × h`
pixels. -/
theorem downsample_upsample_resolution_law :
    ∀ w h : Nat,
      c_SupersamplingScale = 2 ∧
      (w ≤ c_SupersamplingScale * (denoiseChainDims w h).1.1 ∧
        c_SupersamplingScale * (denoiseChainDims w h).1.1 <
          w + c_SupersamplingScale) ∧
      (h ≤ c_SupersamplingScale * (denoiseChainDims w h).1.2 ∧
        c_SupersamplingScale * (denoiseChainDims w h).1.2 <
          h + c_SupersamplingScale) ∧
      ((denoiseChainDims w h).1.1 : ℤ) = ⌈(w : ℚ) / c_SupersamplingScale⌉ ∧
      ((denoiseChainDims w h).1.2 : ℤ) = ⌈(h : ℚ) / c_SupersamplingScale⌉ ∧
      (denoiseChainDims w h).2 = (w, h) := by
  intro w h
  refine ⟨rfl, ⟨?_, ?_⟩, ⟨?_, ?_⟩, ?_, ?_, rfl⟩ <;>
    simp only [denoiseChainDims, downsampleOutputDims, c_SupersamplingScale]
  · unfold ceilDivide; omega
  · unfold ceilDivide; omega
  · unfold ceilDivide; omega
  · unfold ceilDivide; omega
  · simpa using ceilDivide_two_eq_ceil w
  · simpa using ceilDivide_two_eq_ceil h

/-- **C3.** For every shader table built by `BuildShaderTables`
(ray-generation, hit-group, miss), the table's stride is computed once per
table — it equals the single maximum argument-block size over the table's
records — and every record's argument-block size is at most that stride. -/
theorem shader_table_stride_dominates_entries
    (rayGenRecords hitGroupRecords missRecords : List ShaderRecord) :
    ((BuildShaderTables rayGenRecords hitGroupRecords
          missRecords).rayGenShaderTable.strideInBytes =
        maxArgumentBlockSize rayGenRecords ∧
      ∀ r ∈ (BuildShaderTables rayGenRecords hitGroupRecords
          missRecords).rayGenShaderTable.records,
        r.argumentBlockSize ≤ (BuildShaderTables rayGenRecords hitGroupRecords
          missRecords).rayGenShaderTable.strideInBytes) ∧
    ((BuildShaderTables rayGenRecords hitGroupRecords
          missRecords).hitGroupShaderTable.strideInBytes =
        maxArgumentBlockSize hitGroupRecords ∧
      ∀ r ∈ (BuildShaderTables rayGenRecords hitGroupRecords
          missRecords).hitGroupShaderTable.records,
        r.argumentBlockSize ≤ (BuildShaderTables rayGenRecords hitGroupRecords
          missRecords).hitGroupShaderTable.strideInBytes) ∧
    ((BuildShaderTables rayGenRecords hitGroupRecords
          missRecords).missShaderTable.strideInBytes =
        maxArgumentBlockSize missRecords ∧
      ∀ r ∈ (BuildShaderTables rayGenRecords hitGroupRecords
          missRecords).missShaderTable.records,
        r.argumentBlockSize ≤ (BuildShaderTables rayGenRecords hitGroupRecords
          missRecords).missShaderTable.strideInBytes) :=
  ⟨⟨rfl, le_maxArgumentBlockSize rayGenRecords⟩,
    ⟨rfl, le_maxArgumentBlockSize hitGroupRecords⟩,
    ⟨rfl, le_maxArgumentBlockSize missRecords⟩⟩

/-- **C7.** If a scratch- or result-buffer allocation fails during
acceleration-structure initialization, the call signals `BuildFailure` and
the acceleration-structure state is returned unchanged: no partially built
bottom-level structure is observable. -/
theorem init_alloc_failure_safe (alloc : Nat → Bool) (s : ASState)
    (e : BuildFailure)
    (h : (InitializeAccelerationStructures alloc s).2 = some e) :
    e = BuildFailure.allocFailure ∧
      (InitializeAccelerationStructures alloc s).1 = s := by
  rcases hb : allocBuffer alloc 0 with _ | scratch
  · cases e
    refine ⟨rfl, ?_⟩
    simp [InitializeAccelerationStructures, hb]
  · rcases hr : allocResultBuffers alloc 1 NUM_BLAS with _ | bufs
    · cases e
      refine ⟨rfl, ?_⟩
      simp [InitializeAccelerationStructures, hb, hr]
    · exfalso
      simp [InitializeAccelerationStructures, hb, hr] at h

/-- A concrete pre-initialization state, as at program start. -/
def asStateAtStart : ASState := ⟨[], ⟨false, 0⟩, none, 0, true⟩

/-- Witness for **C7** at a concrete input: with an allocator that denies the
scratch allocation, initialization from the start state signals
`BuildFailure.allocFailure` and leaves the state unchanged. -/
theorem init_alloc_failure_safe_witness :
    BuildFailure.allocFailure = BuildFailure.allocFailure ∧
      (InitializeAccelerationStructures (fun _ => false) asStateAtStart).1 =
        asStateAtStart :=
  init_alloc_failure_safe (fun _ => false) asStateAtStart
    BuildFailure.allocFailure rfl

/-- **C1.** In every frame the acceleration-structure update rebuilds the
TLAS from the current geometry-instance table, so — in particular in a refit
frame — the TLAS instance count equals the table's entry count; whenever the
topology has changed the update performs a full rebuild on every BLAS, never
a refit; and when nothing forces a rebuild (no force, no topology change, no
pending rebuild request, every BLAS already built) the per-BLAS operations
are exactly refits. -/
theorem update_refit_tlas_count_and_topology_rebuild
    (forceBuild topologyChanged : Bool) (geometryInstances : List Nat)
    (s : ASState) :
    ((UpdateAccelerationStructures forceBuild topologyChanged
        geometryInstances s).1.topLevelAS.instanceCount =
        geometryInstances.length ∧
      (UpdateAccelerationStructures forceBuild topologyChanged
        geometryInstances s).1.topLevelAS.built = true) ∧
    (topologyChanged = true →
      ASOp.blasRefit ∉ (UpdateAccelerationStructures forceBuild
        topologyChanged geometryInstances s).2) ∧
    (forceBuild = false → topologyChanged = false →
      s.isASrebuildRequested = false →
      (∀ b ∈ s.vBottomLevelAS, b.built = true) →
      ∀ op ∈ (UpdateAccelerationStructures forceBuild topologyChanged
        geometryInstances s).2,
        op = ASOp.blasRefit ∨ op = ASOp.tlasBuild) := by
  refine ⟨⟨rfl, rfl⟩, ?_, ?_⟩
  · intro htopo hmem
    simp only [UpdateAccelerationStructures, htopo, Bool.or_true,
      Bool.true_or, if_true, List.map_map, List.mem_append,
      List.mem_singleton, List.mem_map] at hmem
    rcases hmem with ⟨b, _, hb⟩ | hb
    · cases hb
    · cases hb
  · intro hf ht hr hbuilt op hmem
    simp only [UpdateAccelerationStructures, hf, ht, hr, Bool.or_self,
      Bool.false_or, List.map_map, List.mem_append, List.mem_singleton,
      List.mem_map] at hmem
    rcases hmem with ⟨b, hb, hop⟩ | hop
    · left
      rw [← hop]
      simp [hbuilt b hb]
    · right
      exact hop

/-- **C5.** The event stream of every rendered frame splits as
`pre ++ dispatch :: post` where `pre` — everything issued before the ray
dispatch — contains the TLAS build and no dispatch: every frame rebuilds the
TLAS, and no ray dispatch is ever preceded by a frame that neither rebuilt
nor updated the TLAS. -/
theorem tlas_built_every_frame_before_dispatch
    (forceBuild topologyChanged : Bool) (geometryInstances : List Nat)
    (s : ASState) :
    ∃ pre post,
      (renderFrame forceBuild topologyChanged geometryInstances s).2 =
        pre ++ FrameEvent.dispatchRays :: post ∧
      FrameEvent.asOp ASOp.tlasBuild ∈ pre ∧
      FrameEvent.dispatchRays ∉ pre := by
  refine ⟨FrameEvent.updateSceneState ::
      ((UpdateAccelerationStructures forceBuild topologyChanged
        geometryInstances s).2.map FrameEvent.asOp),
    [FrameEvent.denoise, FrameEvent.compose], ?_, ?_, ?_⟩
  · simp [renderFrame]
  · have htlas : ASOp.tlasBuild ∈ (UpdateAccelerationStructures forceBuild
        topologyChanged geometryInstances s).2 := by
      simp [UpdateAccelerationStructures]
    exact List.mem_cons_of_mem _ (List.mem_map_of_mem _ htlas)
  · intro hmem
    rcases List.mem_cons.mp hmem with heq | hmem
    · cases heq
    · rcases List.mem_map.mp hmem with ⟨op, _, heq⟩
      cases heq

/-- Zipping a list against its own image under `f` (with any tail appended)
pairs every element with its image. -/
theorem zip_with_map_self {α β : Type} (f : α → β) (rest : List β) :
    ∀ l : List α, l.zip (l.map f ++ rest) = l.map fun a => (a, f a) := by
  intro l
  induction l with
  | nil => rfl
  | cons a t ih => simp [ih]

/-- **C6.** Pairing each bottom-level structure with the operation the
per-frame update performs on it: a refit is never attempted on a structure
that has never been fully built, and a never-built structure always receives
a full build as its first update. -/
theorem refit_never_on_unbuilt_structure (forceBuild topologyChanged : Bool)
    (geometryInstances : List Nat) (s : ASState) :
    (∀ pr ∈ s.vBottomLevelAS.zip (UpdateAccelerationStructures forceBuild
        topologyChanged geometryInstances s).2,
      pr.2 = ASOp.blasRefit → pr.1.built = true) ∧
    (∀ pr ∈ s.vBottomLevelAS.zip (UpdateAccelerationStructures forceBuild
        topologyChanged geometryInstances s).2,
      pr.1.built = false → pr.2 = ASOp.blasBuild) := by
  have hzip : s.vBottomLevelAS.zip (UpdateAccelerationStructures forceBuild
      topologyChanged geometryInstances s).2 =
      s.vBottomLevelAS.map fun b =>
        (b, if (forceBuild || topologyChanged || s.isASrebuildRequested) ||
              !b.built then ASOp.blasBuild else ASOp.blasRefit) := by
    simp only [UpdateAccelerationStructures, List.map_map]
    rw [show ((fun pr => pr.2) ∘ fun b : BottomLevelAccelerationStructure =>
        if (forceBuild || topologyChanged || s.isASrebuildRequested) ||
            !b.built then
          ((⟨true, b.resultBuffer⟩ : BottomLevelAccelerationStructure),
            ASOp.blasBuild)
        else (b, ASOp.blasRefit)) = fun b =>
        if (forceBuild || topologyChanged || s.isASrebuildRequested) ||
            !b.built then ASOp.blasBuild else ASOp.blasRefit from ?_]
    · exact zip_with_map_self _ _ s.vBottomLevelAS
    · funext b
      exact apply_ite Prod.snd _ _ _
  rw [hzip]
  constructor
  · intro pr hpr hrefit
    rcases List.mem_map.mp hpr with ⟨b, hb, rfl⟩
    cases hb2 : b.built
    · simp [hb2] at hrefit
    · rfl
  · intro pr hpr hunbuilt
    rcases List.mem_map.mp hpr with ⟨b, hb, rfl⟩
    simp only at hunbuilt
    simp [hunbuilt]

/-- With zero local variance, any tap whose sampled value differs from the
centre's has a vanishing cross-bilateral weight: the variance-guided edge
stop fully preserves detail at full confidence. -/
theorem filterWeight_eq_zero_of_ne (g : GBuffer) (var value : Pixel → ℚ)
    (step : Int) (p : Pixel) (t : Int × Int) (hvar : var p = 0)
    (hne : value (tapPixel p step t) - value p ≠ 0) :
    filterWeight g var value step p t = 0 := by
  unfold filterWeight valueWeight
  rw [hvar]
  simp [hne]

/-- With zero local variance, every tap contributes its weight times the
centre value: either the sampled value equals the centre's, or the weight is
zero. -/
theorem weighted_value_eq_center (g : GBuffer) (var value : Pixel → ℚ)
    (step : Int) (p : Pixel) (t : Int × Int) (hvar : var p = 0) :
    filterWeight g var value step p t * value (tapPixel p step t) =
      filterWeight g var value step p t * value p := by
  by_cases hdv : value (tapPixel p step t) - value p = 0
  · rw [sub_eq_zero] at hdv
    rw [hdv]
  · rw [filterWeight_eq_zero_of_ne g var value step p t hvar hdv]
    ring

/-- One atrous pass leaves the value plane unchanged at a pixel whose local
variance is zero. -/
theorem atrousPassValue_zero_variance (g : GBuffer) (var value : Pixel → ℚ)
    (step : Int) (p : Pixel) (hvar : var p = 0) :
    atrousPassValue g var value step p = value p := by
  simp only [atrousPassValue]
  by_cases hden :
    (kernelTaps.map (filterWeight g var value step p)).sum = 0
  · rw [if_pos hden]
  · rw [if_neg hden]
    have hmap : (kernelTaps.map fun t => filterWeight g var value step p t *
        value (tapPixel p step t)) =
        kernelTaps.map fun t =>
          filterWeight g var value step p t * value p :=
      List.map_congr_left fun t _ =>
        weighted_value_eq_center g var value step p t hvar
    rw [hmap, List.sum_map_mul_right]
    exact mul_div_cancel_left₀ _ hden

/-- One atrous pass keeps the variance plane at zero when the input variance
is uniformly zero. -/
theorem atrousPassVariance_zero_variance (g : GBuffer)
    (var value : Pixel → ℚ) (step : Int) (p : Pixel)
    (hvar : ∀ q, var q = 0) :
    atrousPassVariance g var value step p = 0 := by
  simp only [atrousPassVariance]
  by_cases hden :
    (kernelTaps.map (filterWeight g var value step p)).sum = 0
  · rw [if_pos hden]
    exact hvar p
  · rw [if_neg hden]
    have hmap : (kernelTaps.map fun t =>
        filterWeight g var value step p t ^ 2 * var (tapPixel p step t)) =
        kernelTaps.map fun _ => (0 : ℚ) :=
      List.map_congr_left fun t _ => by rw [hvar]; ring
    rw [hmap]
    simp

/-- Any number of remaining chain iterations, from any iteration number,
returns the value plane unchanged on uniformly-zero variance. -/
theorem atrousChainFrom_zero_variance (g : GBuffer) :
    ∀ (n i : Nat) (value var : Pixel → ℚ), (∀ q, var q = 0) →
      ∀ p, (atrousChainFrom g i n value var).1 p = value p := by
  intro n
  induction n with
  | zero => intro i value var hvar p; rfl
  | succ n ih =>
    intro i value var hvar p
    show (atrousChainFrom g (i + 1) n
      (fun q => atrousPassValue g var value ((2 : Int) ^ i) q)
      (fun q => atrousPassVariance g var value ((2 : Int) ^ i) q)).1 p =
      value p
    rw [ih (i + 1) _ _
      (fun q => atrousPassVariance_zero_variance g var value _ q hvar) p]
    exact atrousPassValue_zero_variance g var value _ p (hvar p)

/-- **C4.** On an occlusion image whose variance map is uniformly zero,
running the edge-aware atrous wavelet filter chain for its configured `n`
iterations returns an output equal to its input at every pixel: the filter is
a fixed point on zero-variance input, whatever the GBuffer contents. -/
theorem atrous_zero_variance_is_fixed_point (g : GBuffer) (n : Nat)
    (value var : Pixel → ℚ) (hvar : ∀ p, var p = 0) :
    ∀ p, (ApplyAtrousWaveletTransformFilter g n value var).1 p = value p :=
  fun p => atrousChainFrom_zero_variance g n 0 value var hvar p

/-- A flat GBuffer for the witness: constant depth, constant normal. -/
def flatGBuffer : GBuffer := ⟨fun _ => 0, fun _ => (0, 0, 1)⟩

/-- A non-constant occlusion image for the witness. -/
def rampImage : Pixel → ℚ := fun p => ((p.1 + 2 * p.2 : Int) : ℚ)

/-- The uniformly zero variance map of the witness. -/
def zeroVarianceMap : Pixel → ℚ := fun _ => 0

/-- Witness for **C4** at a concrete input: five atrous iterations on the
ramp image with uniformly zero variance return the ramp image's value at
pixel `(3, 4)`. -/
theorem atrous_zero_variance_is_fixed_point_witness :
    (ApplyAtrousWaveletTransformFilter flatGBuffer 5 rampImage
      zeroVarianceMap).1 (3, 4) = rampImage (3, 4) :=
  atrous_zero_variance_is_fixed_point flatGBuffer 5 rampImage zeroVarianceMap
    (fun _ => rfl) (3, 4)

/-! ## Concrete evaluations

Closed checks that the modelled operations do what the spec describes on
small inputs: a quiet frame refits both built BLASes and rebuilds the TLAS
with the instance table's count; forcing topology change rebuilds; a
successful initialization marks both BLASes built. -/

example : (UpdateAccelerationStructures false false [1, 2]
    ⟨[⟨true, 0⟩, ⟨true, 1⟩], ⟨true, 2⟩, some 0, 3, false⟩).2 =
    [ASOp.blasRefit, ASOp.blasRefit, ASOp.tlasBuild] := by decide

example : (UpdateAccelerationStructures false true [1, 2]
    ⟨[⟨true, 0⟩, ⟨true, 1⟩], ⟨true, 2⟩, some 0, 3, false⟩).2 =
    [ASOp.blasBuild, ASOp.blasBuild, ASOp.tlasBuild] := by decide

example : (UpdateAccelerationStructures false false [1, 2, 3]
    ⟨[⟨true, 0⟩, ⟨true, 1⟩], ⟨true, 2⟩, some 0, 3, false⟩).1.topLevelAS =
    ⟨true, 3⟩ := by decide

example :
    (InitializeAccelerationStructures (fun _ => true) asStateAtStart).1 =
    ⟨[⟨true, 1⟩, ⟨true, 2⟩], ⟨true, 0⟩, some 0, 0, false⟩ := by decide

example : downsampleOutputDims 1920 1080 c_SupersamplingScale =
    (960, 540) := by decide

example : downsampleOutputDims 1919 1079 c_SupersamplingScale =
    (960, 540) := by decide

example : (drainDeferredRequests ⟨true, false, true, false, true⟩).1 =
    [DeferredAction.sceneInit, DeferredAction.geometryInit,
      DeferredAction.recreateAOSamples] := by decide

end D3D12RaytracingAmbientOcclusion
